import Mathlib

/-!
Verification of the adaptive decision kernel (FREE-LLM-DRIVER core) against
its natural-language specification.

The Python sources under `src/core/` are shallowly embedded below:
* real numbers (Python floats) are modelled as `ℚ`;
* Python strings are modelled as `List Char` (`PyStr`), with substring
  search, lower-casing and whitespace splitting defined explicitly;
* Python dicts used as ordered key-value stores are modelled as
  insertion-ordered association lists;
* wall-clock timestamps are modelled as rational "now" parameters;
* the transcendental freshness decay `exp(-days/7)` is abstracted as an
  explicit function parameter `fresh` (theorems quantify over it);
* `try/except` blocks are modelled by explicit failure flags (the body may
  "raise", the handler produces the documented fallback value).
-/

abbrev PyStr := List Char

/-- Python `str.lower()` on a character list. -/
def pyLower (s : PyStr) : PyStr := s.map Char.toLower

/-- Python substring containment `pat in hay` (contiguous substring). -/
def strContains (hay pat : PyStr) : Bool :=
  match hay with
  | [] => pat.isEmpty
  | _ :: t => pat.isPrefixOf hay || strContains t pat

/-- Python `str.split()` with no arguments: split on whitespace runs,
dropping empty pieces. -/
def splitWs (s : PyStr) : List PyStr :=
  (s.splitOnP Char.isWhitespace).filter (fun w => !w.isEmpty)

/-- ThreatLevel enum from `emotional_system.py`. -/
inductive ThreatLevel
  | SAFE
  | LOW
  | MODERATE
  | HIGH
  | CRITICAL
deriving DecidableEq, Repr

/-- Numeric `.value` of the ThreatLevel enum (1-5). -/
def ThreatLevel.val : ThreatLevel → ℚ
  | .SAFE => 1
  | .LOW => 2
  | .MODERATE => 3
  | .HIGH => 4
  | .CRITICAL => 5

/-- `ThreatDetector.threat_patterns['security_threats']`. -/
def securityThreats : List PyStr :=
  ["delete", "remove", "rm ", "format", "sudo", "admin",
   "password", "private", "secret", "token", "key",
   "system", "root", "kernel", "registry"].map String.toList

/-- `ThreatDetector.threat_patterns['resource_intensive']`. -/
def resourceIntensive : List PyStr :=
  ["infinite", "loop", "recursive", "heavy", "large",
   "massive", "bulk", "batch", "parallel"].map String.toList

/-- `ThreatDetector.threat_patterns['complexity_markers']`. -/
def complexityMarkers : List PyStr :=
  ["complex", "difficult", "advanced", "expert",
   "sophisticated", "intricate", "comprehensive"].map String.toList

/-- `ThreatDetector.threat_patterns['destructive_operations']`. -/
def destructiveOperations : List PyStr :=
  ["overwrite", "replace", "destroy", "clear",
   "reset", "wipe", "purge", "cleanup"].map String.toList

/-- The category table with its `threat_weights`, in dict insertion order. -/
def threatCategories : List (List PyStr × ℚ) :=
  [(securityThreats, 5), (resourceIntensive, 3),
   (complexityMarkers, 2), (destructiveOperations, 4)]

/-- Keywords of one category matched in the lowered description
(`[pattern for pattern in patterns if pattern in description_lower]`). -/
def categoryMatches (patterns : List PyStr) (descLower : PyStr) : List PyStr :=
  patterns.filter (fun p => strContains descLower p)

/-- Sum of `len(matches) * weight` over the four categories. -/
def catTotalScore (descLower : PyStr) : ℚ :=
  (threatCategories.map
    (fun c => ((categoryMatches c.1 descLower).length : ℚ) * c.2)).sum

/-- The learned-threat weight table `learned_threats` (token to weight),
an insertion-ordered dict. -/
abbrev LearnedTable := List (PyStr × ℚ)

/-- Lookup with the defaultdict default 0. -/
def tableGet (t : LearnedTable) (k : PyStr) : ℚ :=
  match t.find? (fun e => decide (e.1 = k)) with
  | some e => e.2
  | none => 0

/-- Python `key in dict`. -/
def tableHas (t : LearnedTable) (k : PyStr) : Bool :=
  (t.find? (fun e => decide (e.1 = k))).isSome

/-- defaultdict update `t[k] += x`: in-place update of an existing key,
else appended at the end (dict insertion order). -/
def tableIncr (t : LearnedTable) (k : PyStr) (x : ℚ) : LearnedTable :=
  if tableHas t k then t.map (fun e => if e.1 = k then (e.1, e.2 + x) else e)
  else t ++ [(k, x)]

/-- Contribution of matched learned patterns:
`for pattern, weight in learned_threats.items(): if pattern in lower: score += weight`. -/
def learnedScore (t : LearnedTable) (descLower : PyStr) : ℚ :=
  ((t.filter (fun e => strContains descLower e.1)).map Prod.snd).sum

/-- `ThreatDetector._get_type_risk_multiplier`. -/
def typeRiskMultiplier (taskType : PyStr) : ℚ :=
  let t := pyLower taskType
  if t = "code".toList then 2
  else if t = "system".toList then 3
  else if t = "admin".toList then 4
  else if t = "analysis".toList then 1
  else if t = "creative".toList then 0.5
  else if t = "qa".toList then 0.3
  else if t = "web_search".toList then 0.8
  else 1

/-- The `length_factor` complexity term `min(len(description)/100, 2.0)`. -/
def lengthFactor (desc : PyStr) : ℚ :=
  min ((desc.length : ℚ) / 100) 2

/-- The numeric threat score computed by `ThreatDetector.assess_threat`
(pattern scores plus learned scores, times the type multiplier, plus the
length factor). -/
def rawThreatScore (desc taskType : PyStr) (learned : LearnedTable) : ℚ :=
  let dl := pyLower desc
  (catTotalScore dl + learnedScore learned dl) * typeRiskMultiplier taskType
    + lengthFactor desc

/-- `ThreatDetector._calculate_threat_level` score bands. -/
def calculateThreatLevel (score : ℚ) : ThreatLevel :=
  if score ≤ 1 then .SAFE
  else if score ≤ 3 then .LOW
  else if score ≤ 6 then .MODERATE
  else if score ≤ 10 then .HIGH
  else .CRITICAL

/-- `ThreatDetector.assess_threat` (happy path): level and score. -/
def assessThreat (desc taskType : PyStr) (learned : LearnedTable) :
    ThreatLevel × ℚ :=
  let s := rawThreatScore desc taskType learned
  (calculateThreatLevel s, s)

/-- `ThreatDetector.assess_threat` with its `try/except`: the flag models a
raise of any internal step, answered by the fixed fallback
`(ThreatLevel.MODERATE, 3.0)`. -/
def assessThreatChecked (raises : Bool) (desc taskType : PyStr)
    (learned : LearnedTable) : ThreatLevel × ℚ :=
  if raises then (.MODERATE, 3) else assessThreat desc taskType learned

/-- Cap pass at the end of `learn_from_outcome`:
`for pattern in learned_threats: learned_threats[pattern] = min(w, 5.0)`. -/
def capTable (t : LearnedTable) : LearnedTable :=
  t.map (fun e => (e.1, min e.2 5))

/-- `ThreatDetector.learn_from_outcome` on the learned-weight table. -/
def learnFromOutcome (t : LearnedTable) (desc : PyStr)
    (wasSuccessful : Bool) (impactSeverity : ℚ) : LearnedTable :=
  let words := splitWs (pyLower desc)
  let t1 :=
    if ¬ wasSuccessful ∧ impactSeverity > 0.5 then
      words.foldl
        (fun acc w =>
          if w.length > 3 then tableIncr acc w (impactSeverity * 0.5) else acc) t
    else if wasSuccessful then
      words.foldl
        (fun acc w =>
          if tableHas acc w then
            acc.map (fun e => if e.1 = w then (e.1, e.2 * 0.95) else e)
          else acc) t
    else t
  capTable t1

/-- EmotionalState enum from `emotional_system.py`. -/
inductive EmotionalState
  | NEUTRAL
  | POSITIVE
  | NEGATIVE
  | ANXIOUS
  | CONFIDENT
  | FRUSTRATED
deriving DecidableEq, Repr

/-- EmotionalContext dataclass (the wall-clock timestamp field is not
modelled). -/
structure EmotionalContext where
  threat_level : ThreatLevel
  emotional_weight : ℚ
  confidence : ℚ
  valence : ℚ
  arousal : ℚ
  state : EmotionalState
deriving DecidableEq, Repr

/-- Experience dataclass; task identifiers are abstracted as naturals and
timestamps as rational seconds. -/
structure Experience where
  task_id : ℕ
  task_pattern : PyStr
  task_type : PyStr
  result_quality : ℚ
  success : Bool
  execution_time : ℚ
  emotional_impact : ℚ
  threat_assessment : ThreatLevel
  timestamp : ℚ
  reinforcement_count : ℕ
  decay_factor : ℚ
deriving DecidableEq, Repr

/-- Stop words of `AdaptiveMemory._extract_task_pattern`. -/
def stopWords : List PyStr :=
  ["の", "を", "に", "は", "が", "で", "から", "まで", "と",
   "a", "an", "the", "is", "are", "and", "or", "but", "in", "on", "at",
   "to", "for", "of", "with", "by"].map String.toList

/-- Action-verb substrings preferred during pattern extraction. -/
def actionKeywords : List PyStr :=
  ["作成", "create", "分析", "analyze", "実行", "execute",
   "検索", "search"].map String.toList

/-- Python string comparison (lexicographic by code point), used for
`sorted(important_words)`. -/
def pyStrLe : PyStr → PyStr → Bool
  | [], _ => true
  | _ :: _, [] => false
  | a :: xs, b :: ys =>
      if a < b then true else if b < a then false else pyStrLe xs ys

/-- Python `'_'.join(l)`. -/
def joinUnderscore (l : List PyStr) : PyStr :=
  List.intercalate "_".toList l

/-- Python `p.split('_')` (keeps empty pieces, as Python does for a
separator argument). -/
def splitUnderscore (p : PyStr) : List PyStr :=
  p.splitOnP (fun c => decide (c = '_'))

/-- `AdaptiveMemory._extract_task_pattern`. -/
def extractTaskPattern (desc ttype : PyStr) : PyStr :=
  let words := splitWs (pyLower desc)
  let meaningful :=
    words.filter (fun w => decide (¬ w ∈ stopWords) && decide (w.length > 2))
  let important :=
    (meaningful.take 5).filter (fun w => actionKeywords.any (fun kw => strContains w kw))
  let pattern :=
    if important.isEmpty then joinUnderscore (meaningful.take 3)
    else joinUnderscore (important.mergeSort pyStrLe)
  if pattern.isEmpty then "generic_task".toList else pattern

/-- `AdaptiveMemory._calculate_pattern_similarity`: Jaccard index over the
token sets of the two patterns. -/
def patternSimilarity (p1 p2 : PyStr) : ℚ :=
  let w1 := (splitUnderscore p1).toFinset
  let w2 := (splitUnderscore p2).toFinset
  if w1 = ∅ ∨ w2 = ∅ then 0
  else ((w1 ∩ w2).card : ℚ) / ((w1 ∪ w2).card : ℚ)

/-- `AdaptiveMemory._find_similar_experiences` over the episodic store in
dict insertion order. -/
def findSimilarExperiences (pattern ttype : PyStr) (mem : List Experience) :
    List Experience :=
  mem.filter (fun e =>
    if e.task_type = ttype then decide (patternSimilarity pattern e.task_pattern > 0.3)
    else (splitUnderscore pattern).any (fun w => strContains e.task_pattern w))

/-- `AdaptiveMemory._calculate_freshness_score`, with the exponential decay
`exp(-days_old/7)` abstracted as the parameter `fresh` applied to
`days_old = (now - timestamp) / (24*3600)`. -/
def freshnessScore (fresh : ℚ → ℚ) (now : ℚ) (e : Experience) : ℚ :=
  fresh ((now - e.timestamp) / (24 * 3600))

/-- Eviction importance score of `AdaptiveMemory._manage_memory_capacity`. -/
def importanceScore (fresh : ℚ → ℚ) (now : ℚ) (e : Experience) : ℚ :=
  (e.reinforcement_count : ℚ) * 0.3
    + (if e.success then 1 else 0.5) * 0.2
    + |e.emotional_impact| * 0.3
    + freshnessScore fresh now e * 0.2

/-- `AdaptiveMemory._calculate_relevance_score`. -/
def calculateRelevanceScore (targetPattern : PyStr) (e : Experience) : ℚ :=
  patternSimilarity targetPattern e.task_pattern
    + min ((e.reinforcement_count : ℚ) / 10) 0.5
    + (if e.success then 0.2 else -0.1)

/-- `AdaptiveMemory.recall_similar_experiences` (happy path). -/
def recallSimilarExperiences (desc ttype : PyStr) (limit : ℕ)
    (mem : List Experience) (now : ℚ) (fresh : ℚ → ℚ) : List Experience :=
  let pattern := extractTaskPattern desc ttype
  let sims := findSimilarExperiences pattern ttype mem
  let scored := sims.map (fun e =>
    (calculateRelevanceScore pattern e * 0.5
      + freshnessScore fresh now e * 0.3
      + |e.emotional_impact| * 0.2, e))
  let sorted := scored.mergeSort (fun a b => decide (b.1 ≤ a.1))
  (sorted.take limit).map Prod.snd

/-- Ascending comparison on `(importance, task_id)` pairs, the order used
by the Python call `memory_scores.sort()` on those tuples. -/
def scoreLe (a b : ℚ × ℕ) : Bool :=
  decide (a.1 < b.1 ∨ (a.1 = b.1 ∧ a.2 ≤ b.2))

/-- `AdaptiveMemory._manage_memory_capacity`: when the episodic store
exceeds its bound, sort `(importance, id)` ascending and delete the first
`len - max` identifiers. -/
def manageMemoryCapacity (maxE : ℕ) (fresh : ℚ → ℚ) (now : ℚ)
    (mem : List Experience) : List Experience :=
  if mem.length > maxE then
    let k := mem.length - maxE
    let scores := mem.map (fun e => (importanceScore fresh now e, e.task_id))
    let sorted := scores.mergeSort scoreLe
    let toRemove := (sorted.take k).map Prod.snd
    mem.filter (fun e => decide (¬ e.task_id ∈ toRemove))
  else mem

/-- Reinforcement of one similar experience inside
`AdaptiveMemory.store_experience`: increment the count and merge the new
quality by a running weighted average. -/
def reinforceExperience (q : ℚ) (e : Experience) : Experience :=
  let rc := e.reinforcement_count + 1
  let weight : ℚ := 1 / (rc : ℚ)
  { e with reinforcement_count := rc,
           result_quality := e.result_quality * (1 - weight) + q * weight }

/-- Python dict assignment `episodic_memory[task_id] = experience`:
replace in place when the key exists, else append. -/
def dictInsertExp (mem : List Experience) (e : Experience) : List Experience :=
  if mem.any (fun x => decide (x.task_id = e.task_id)) then
    mem.map (fun x => if x.task_id = e.task_id then e else x)
  else mem ++ [e]

/-- The episodic store after the body of `AdaptiveMemory.store_experience`
up to (but not including) the capacity-management pass: the three most
similar experiences are reinforced and the new record is inserted.
Semantic memory, working memory and the statistics counters do not affect
the episodic store and are not tracked. -/
def storePreEvict (mem : List Experience) (tid : ℕ) (desc ttype : PyStr)
    (q : ℚ) (success : Bool) (etime : ℚ) (ectx : EmotionalContext)
    (now : ℚ) : List Experience :=
  let pattern := extractTaskPattern desc ttype
  let newExp : Experience :=
    { task_id := tid, task_pattern := pattern, task_type := ttype,
      result_quality := q, success := success, execution_time := etime,
      emotional_impact := ectx.emotional_weight,
      threat_assessment := ectx.threat_level, timestamp := now,
      reinforcement_count := 1, decay_factor := 1 }
  let similarIds :=
    ((findSimilarExperiences pattern ttype mem).take 3).map Experience.task_id
  let mem1 := mem.map (fun e =>
    if e.task_id ∈ similarIds then reinforceExperience q e else e)
  dictInsertExp mem1 newExp

/-- `AdaptiveMemory.store_experience` acting on the episodic store:
store-then-evict pass. -/
def storeExperience (maxE : ℕ) (fresh : ℚ → ℚ) (mem : List Experience)
    (tid : ℕ) (desc ttype : PyStr) (q : ℚ) (success : Bool) (etime : ℚ)
    (ectx : EmotionalContext) (now : ℚ) : List Experience :=
  manageMemoryCapacity maxE fresh now
    (storePreEvict mem tid desc ttype q success etime ectx now)

/-- The `task_result` dict consumed by `RewardSystem.calculate_reward`;
optional fields model `dict.get` with its defaults. -/
structure TaskResult where
  success : Option Bool
  execution_time : Option ℚ
  quality : Option ℚ
deriving DecidableEq, Repr

/-- `RewardSystem.calculate_reward` (happy path): success, speed, quality,
confidence and threat components, with the final clip `max(total, 0.0)`. -/
def calculateReward (res : TaskResult) (ectx : EmotionalContext) : ℚ :=
  let t1 : ℚ := if res.success.getD false then 1 else 0
  let et := res.execution_time.getD 30
  let t2 := if et < 10 then t1 + 0.5 * ((10 - et) / 10) else t1
  let t3 := t2 + res.quality.getD 0.5 * 2
  let t4 := if ectx.state = EmotionalState.CONFIDENT then t3 + 0.2 else t3
  let t5 :=
    if ectx.threat_level = ThreatLevel.CRITICAL then t4 - 0.5
    else if ectx.threat_level = ThreatLevel.SAFE then t4 + 0.1
    else t4
  max t5 0

/-- `RewardSystem.calculate_reward` with its `try/except`: a raise of any
internal step is answered by `0.0`. -/
def calculateRewardChecked (raises : Bool) (res : TaskResult)
    (ectx : EmotionalContext) : ℚ :=
  if raises then 0 else calculateReward res ectx

/-- `EmotionalProcessingSystem._calculate_emotional_significance`. -/
def calculateEmotionalSignificance (threatScore : ℚ)
    (past : List Experience) : ℚ :=
  let threatWeight := threatScore / 10
  let avgExpWeight : ℚ :=
    if past.isEmpty then 0.5
    else ((past.map (fun e =>
      if e.success then |e.emotional_impact| else |e.emotional_impact| * 1.5)).sum)
      / (past.length : ℚ)
  min (max (threatWeight * 0.4 + avgExpWeight * 0.3) 0) 1

/-- `EmotionalProcessingSystem._calculate_confidence`. -/
def confidenceFromPast (past : List Experience) : ℚ :=
  if past.isEmpty then 0
  else
    let base := min ((past.length : ℚ) / 10) 0.8
    let successRate :=
      ((past.filter (fun e => e.success)).length : ℚ) / (past.length : ℚ)
    min (base + successRate * 0.2) 1

/-- `EmotionalProcessingSystem._calculate_emotional_dimensions`. -/
def emotionalDimensions (tl : ThreatLevel) (past : List Experience)
    (ew : ℚ) : ℚ × ℚ :=
  let valence0 : ℚ :=
    if past.isEmpty then 0
    else (((past.filter (fun e => e.success)).length : ℚ) / (past.length : ℚ) - 0.5) * 2
  let valence := valence0 - (tl.val - 1) * 0.2
  let arousal := ew + (tl.val - 1) * 0.15
  (max (min valence 1) (-1), max (min arousal 1) 0)

/-- `EmotionalProcessingSystem._determine_emotional_state`. -/
def determineEmotionalState (valence arousal : ℚ) (tl : ThreatLevel) :
    EmotionalState :=
  if tl = ThreatLevel.CRITICAL then .ANXIOUS
  else if valence > 0.3 then (if arousal > 0.6 then .CONFIDENT else .POSITIVE)
  else if valence < -0.3 then (if arousal > 0.6 then .FRUSTRATED else .NEGATIVE)
  else if arousal > 0.7 then .ANXIOUS
  else .NEUTRAL

/-- `EmotionalProcessingSystem.evaluate_task_emotion` (happy path) over the
learned-threat table and the episodic store. -/
def evaluateTaskEmotion (desc ttype : PyStr) (learned : LearnedTable)
    (mem : List Experience) (now : ℚ) (fresh : ℚ → ℚ) : EmotionalContext :=
  let a := assessThreat desc ttype learned
  let past := recallSimilarExperiences desc ttype 5 mem now fresh
  let ew := calculateEmotionalSignificance a.2 past
  let conf := confidenceFromPast past
  let dims := emotionalDimensions a.1 past ew
  let st := determineEmotionalState dims.1 dims.2 a.1
  { threat_level := a.1, emotional_weight := ew, confidence := conf,
    valence := dims.1, arousal := dims.2, state := st }

/-- CognitiveTask dataclass from `executive_controller.py`; identifiers are
abstracted as naturals, the optional deadline as an absolute rational
timestamp. -/
structure CognitiveTask where
  task_id : ℕ
  description : PyStr
  task_type : PyStr
  urgency : ℚ
  importance : ℚ
  complexity : ℚ
  required_attention : ℚ
  emotional_weight : ℚ
  deadline : Option ℚ
deriving DecidableEq, Repr

/-- AttentionResource dataclass. -/
structure AttentionResource where
  total_capacity : ℚ
  allocated : ℚ
  available : ℚ
  efficiency : ℚ
  fatigue_level : ℚ
deriving DecidableEq, Repr

/-- AttentionType enum. -/
inductive AttentionType
  | FOCUSED
  | DIVIDED
  | SUSTAINED
  | SELECTIVE
deriving DecidableEq, Repr

/-- `AttentionManager.attention_performance` table. -/
def attentionPerformance : AttentionType → ℚ
  | .FOCUSED => 1
  | .DIVIDED => 0.7
  | .SUSTAINED => 0.8
  | .SELECTIVE => 0.9

/-- The deadline-pressure term of `AttentionManager._calculate_priority`:
`max(0, 1 - time_to_deadline / 86400)` for a future deadline, else 0. -/
def deadlinePressure (now : ℚ) (t : CognitiveTask) : ℚ :=
  match t.deadline with
  | none => 0
  | some d =>
      let timeToDeadline := d - now
      if timeToDeadline > 0 then max 0 (1 - timeToDeadline / (24 * 3600)) else 0

/-- `AttentionManager._calculate_priority`: weighted sum of
urgency-importance, deadline pressure, emotional weight and complexity,
clamped from above by `min(total, 1.0)`. -/
def calculatePriority (now : ℚ) (t : CognitiveTask) : ℚ :=
  let urgencyImportance := t.urgency * t.importance
  let emotionalBoost := t.emotional_weight * 0.3
  let complexityFactor := t.complexity * 0.2
  min (urgencyImportance * 0.5 + deadlinePressure now t * 0.3
        + emotionalBoost + complexityFactor) 1

/-- `AttentionManager._determine_attention_type`. -/
def determineAttentionType (t : CognitiveTask) (activeCount : ℕ) :
    AttentionType :=
  if activeCount = 0 then .FOCUSED
  else if activeCount = 1 then .SELECTIVE
  else if t.complexity > 0.7 then .SUSTAINED
  else .DIVIDED

/-- Insert-or-replace on an insertion-ordered association list (Python dict
assignment). -/
def upsert {β : Type} (l : List (ℕ × β)) (k : ℕ) (v : β) : List (ℕ × β) :=
  if l.any (fun e => decide (e.1 = k)) then
    l.map (fun e => if e.1 = k then (k, v) else e)
  else l ++ [(k, v)]

/-- State of an AttentionManager: the resource pool and the `active_tasks`
dict. -/
structure AMState where
  resource : AttentionResource
  active_tasks : List (ℕ × CognitiveTask)
deriving Repr

/-- `AttentionManager.__init__`. -/
def initAM (total : ℚ) : AMState :=
  { resource :=
      { total_capacity := total, allocated := 0, available := total,
        efficiency := 1, fatigue_level := 0 },
    active_tasks := [] }

/-- The `while prioritized_tasks and remaining_attention > 0` loop of
`AttentionManager.allocate_attention`: grants `min(required, remaining)`
scaled by the attention-type efficiency, updating the allocations dict and
the active-task dict. -/
def allocLoop : List CognitiveTask → ℚ → List (ℕ × CognitiveTask) →
    List (ℕ × ℚ) → List (ℕ × ℚ) × List (ℕ × CognitiveTask)
  | [], _, active, allocs => (allocs, active)
  | t :: rest, remaining, active, allocs =>
      if remaining > 0 then
        let required := min t.required_attention remaining
        let atype := determineAttentionType t active.length
        let eff := attentionPerformance atype
        allocLoop rest (remaining - required) (upsert active t.task_id t)
          (upsert allocs t.task_id (required * eff))
      else (allocs, active)

/-- `AttentionManager._update_attention_resource`: set `allocated` to the
sum of the allocations of the round, `available` to `total - allocated`, and
update fatigue and efficiency from the load fraction. -/
def updateAttentionResource (r : AttentionResource)
    (allocs : List (ℕ × ℚ)) : AttentionResource :=
  let totalAllocated := (allocs.map Prod.snd).sum
  let loadFraction := totalAllocated / r.total_capacity
  let fatigue :=
    if loadFraction > 0.8 then r.fatigue_level + 0.1
    else if loadFraction < 0.3 then max 0 (r.fatigue_level - 0.05)
    else r.fatigue_level
  { r with allocated := totalAllocated,
           available := r.total_capacity - totalAllocated,
           fatigue_level := fatigue,
           efficiency := max 0.1 (1 - fatigue) }

/-- `AttentionManager.allocate_attention`: tasks are processed in
max-priority order (the max-heap pop order), then the resource pool is
updated. -/
def allocateAttention (now : ℚ) (tasks : List CognitiveTask) (st : AMState) :
    AMState :=
  let prioritized := tasks.mergeSort
    (fun a b => decide (calculatePriority now b ≤ calculatePriority now a))
  let res := allocLoop prioritized st.resource.available st.active_tasks []
  { resource := updateAttentionResource st.resource res.1,
    active_tasks := res.2 }

/-- `AttentionManager.release_attention`: if the task is active, remove it
and move its `required_attention` from `allocated` back to `available`. -/
def releaseAttention (tid : ℕ) (st : AMState) : AMState :=
  match st.active_tasks.find? (fun e => decide (e.1 = tid)) with
  | none => st
  | some e =>
      let released := e.2.required_attention
      { resource :=
          { st.resource with
            available := st.resource.available + released,
            allocated := st.resource.allocated - released },
        active_tasks := st.active_tasks.filter (fun x => decide (¬ x.1 = tid)) }

/-- One observable operation on an AttentionManager. -/
inductive AMOp
  | alloc (now : ℚ) (tasks : List CognitiveTask)
  | release (tid : ℕ)

/-- Apply one operation. -/
def amStep (st : AMState) : AMOp → AMState
  | .alloc now tasks => allocateAttention now tasks st
  | .release tid => releaseAttention tid st

/-- Run a sequence of allocate/release operations. -/
def amRun (st : AMState) (ops : List AMOp) : AMState := ops.foldl amStep st

/-- The CapacityPool conservation invariant. -/
def capacityInvariant (st : AMState) : Prop :=
  st.resource.allocated + st.resource.available = st.resource.total_capacity

/-- ProcessingMode enum from `integrated_neural_system.py`. -/
inductive ProcessingMode
  | EMERGENCY
  | ANALYTICAL
  | INTUITIVE
  | MAINTENANCE
deriving DecidableEq, Repr

/-- NeuralIntegrationLevel enum. -/
inductive NeuralIntegrationLevel
  | BASIC
  | MODERATE
  | HIGH
  | SEAMLESS
deriving DecidableEq, Repr

/-- Numeric `.value` of the integration level (1-4). -/
def NeuralIntegrationLevel.val : NeuralIntegrationLevel → ℚ
  | .BASIC => 1
  | .MODERATE => 2
  | .HIGH => 3
  | .SEAMLESS => 4

/-- DecisionStrategy enum from `executive_controller.py`. -/
inductive DecisionStrategy
  | RATIONAL
  | INTUITIVE
  | HYBRID
  | EMOTIONAL
  | CONSERVATIVE
deriving DecidableEq, Repr

/-- ExecutiveDecision dataclass (decision identifiers, timestamps and the
alternatives list are not modelled). -/
structure ExecutiveDecision where
  chosen_strategy : DecisionStrategy
  task_sequence : List PyStr
  resource_allocation : List (PyStr × ℚ)
  confidence : ℚ
  rationale : PyStr
deriving DecidableEq, Repr

/-- The `system_state` dict produced by
`IntegratedNeuralSystem._check_neural_foundation`; optional fields model
keys that may be absent from the dict. -/
structure SystemState where
  health_status : Option PyStr
  foundation_stable : Option Bool
deriving DecidableEq, Repr

/-- `IntegratedNeuralSystem._determine_processing_mode`: the emergency test
against `EMERGENCY_THRESHOLD = ThreatLevel.HIGH` (with the dict-get default
`True` for `foundation_stable`), the redundant second HIGH test, then the
arousal / confidence / emotional-weight cascade. -/
def determineProcessingMode (s : SystemState) (c : EmotionalContext) :
    ProcessingMode :=
  if 4 ≤ c.threat_level.val ∨ s.foundation_stable.getD true = false then
    .EMERGENCY
  else if c.threat_level = ThreatLevel.HIGH then .EMERGENCY
  else if c.arousal > 0.6 then .INTUITIVE
  else if c.confidence > 0.4 ∨ c.emotional_weight > 0.6 then .ANALYTICAL
  else .MAINTENANCE

/-- The mode cascade exactly as the specification words it (for the
refinement comparison): EMERGENCY on risk at least HIGH or unstable
vitals, else INTUITIVE on arousal above 0.6, else ANALYTICAL on confidence
above 0.4 or emotional weight above 0.6, else MAINTENANCE. -/
def specModeCascade (s : SystemState) (c : EmotionalContext) :
    ProcessingMode :=
  if 4 ≤ c.threat_level.val ∨ s.foundation_stable.getD true = false then
    .EMERGENCY
  else if c.arousal > 0.6 then .INTUITIVE
  else if c.confidence > 0.4 ∨ c.emotional_weight > 0.6 then .ANALYTICAL
  else .MAINTENANCE

/-- The `execution_result` dict of
`IntegratedNeuralSystem._execute_with_neural_monitoring`. -/
structure ExecResult where
  success : Option Bool
  execution_time : Option ℚ
  quality : Option ℚ
deriving DecidableEq, Repr

/-- NeuralProcessingResult dataclass (timestamps, wall-clock durations,
the feedback-loop list and the learning-update dict are not modelled). -/
structure NeuralProcessingResult where
  goal : PyStr
  processing_mode : ProcessingMode
  integration_level : NeuralIntegrationLevel
  executive_decision : ExecutiveDecision
  emotional_context : EmotionalContext
  system_state : SystemState
  success : Bool
deriving Repr

/-- Environment of one `process_goal_neural` call: which subsystems are
wired, the current learned/episodic state, and one raise-flag per
`try`-protected stage. The flags model "some statement inside this stage
raised"; `assemblyRaises` models a raise between the stage handlers and the
own `except` of the method (the only way an exception reaches the top handler).
`pyHash` abstracts the process-seeded Python string hash. -/
structure NeuralEnv where
  kernelPresent : Bool
  kernelStatus : PyStr
  foundationCheckRaises : Bool
  emotionalPresent : Bool
  emotionalRaises : Bool
  learned : LearnedTable
  episodic : List Experience
  now : ℚ
  fresh : ℚ → ℚ
  controllerPresent : Bool
  controllerRaises : Bool
  controllerDecision : ExecutiveDecision
  monitoringRaises : Bool
  assemblyRaises : Bool
  initialIntegrationLevel : NeuralIntegrationLevel
  pyHash : PyStr → ℕ

/-- `.name` of a ThreatLevel, for the rationale strings. -/
def threatName : ThreatLevel → PyStr
  | .SAFE => "SAFE".toList
  | .LOW => "LOW".toList
  | .MODERATE => "MODERATE".toList
  | .HIGH => "HIGH".toList
  | .CRITICAL => "CRITICAL".toList

/-- `IntegratedNeuralSystem._check_neural_foundation` with its handler:
a raise yields only `foundation_stable = False`; a wired kernel reports
stability iff the status is healthy or warning; no kernel reports
`unknown` and instability. -/
def checkNeuralFoundation (env : NeuralEnv) : SystemState :=
  if env.foundationCheckRaises then
    { health_status := none, foundation_stable := some false }
  else if env.kernelPresent then
    { health_status := some env.kernelStatus,
      foundation_stable :=
        some (env.kernelStatus = "healthy".toList ∨
              env.kernelStatus = "warning".toList : Bool) }
  else
    { health_status := some "unknown".toList, foundation_stable := some false }

/-- Fallback EmotionalContext when no emotional system is wired
(confidence 0.3). -/
def defaultEmotionalCtx : EmotionalContext :=
  { threat_level := .MODERATE, emotional_weight := 0.5, confidence := 0.3,
    valence := 0, arousal := 0.5, state := .NEUTRAL }

/-- Fallback EmotionalContext of the error handler (confidence 0.1). -/
def errorEmotionalCtx : EmotionalContext :=
  { threat_level := .MODERATE, emotional_weight := 0.5, confidence := 0.1,
    valence := 0, arousal := 0.5, state := .NEUTRAL }

/-- `IntegratedNeuralSystem._evaluate_emotional_limbic` with its handler;
the emotional system is called with the default task type `general`. -/
def evaluateEmotionalLimbic (env : NeuralEnv) (goal : PyStr) :
    EmotionalContext :=
  if env.emotionalPresent then
    if env.emotionalRaises then errorEmotionalCtx
    else evaluateTaskEmotion goal "general".toList env.learned env.episodic
      env.now env.fresh
  else defaultEmotionalCtx

/-- `IntegratedNeuralSystem._adapt_integration_level`: the target level is
a function of the processing mode. -/
def adaptIntegrationLevel (mode : ProcessingMode) : NeuralIntegrationLevel :=
  match mode with
  | .EMERGENCY => .HIGH
  | .ANALYTICAL => .SEAMLESS
  | .INTUITIVE => .MODERATE
  | .MAINTENANCE => .BASIC

/-- `IntegratedNeuralSystem._emergency_response_decision`: the fixed
conservative decision with confidence 0.6. -/
def emergencyResponseDecision (env : NeuralEnv) (goal : PyStr)
    (ctx : EmotionalContext) : ExecutiveDecision :=
  { chosen_strategy := .CONSERVATIVE,
    task_sequence :=
      ["emergency_goal_".toList ++ (toString (env.pyHash goal % 10000)).toList],
    resource_allocation := [("emergency_allocation".toList, 50)],
    confidence := 0.6,
    rationale :=
      "Emergency response due to threat level: ".toList
        ++ threatName ctx.threat_level }

/-- `IntegratedNeuralSystem._create_fallback_decision`: the fixed
conservative decision with confidence 0.3. -/
def createFallbackDecision (env : NeuralEnv) (goal : PyStr) :
    ExecutiveDecision :=
  { chosen_strategy := .CONSERVATIVE,
    task_sequence :=
      ["fallback_goal_".toList ++ (toString (env.pyHash goal % 10000)).toList],
    resource_allocation := [],
    confidence := 0.3,
    rationale := "Fallback decision due to system limitation".toList }

/-- `IntegratedNeuralSystem._execute_cognitive_processing` with its
handler: the emergency branch, the wired-controller branch (whose raise is
answered by the fallback decision; the result of the controller is supplied
by the environment), and the unwired fallback. -/
def executeCognitiveProcessing (env : NeuralEnv) (goal : PyStr)
    (mode : ProcessingMode) (ctx : EmotionalContext) : ExecutiveDecision :=
  if mode = ProcessingMode.EMERGENCY then emergencyResponseDecision env goal ctx
  else if env.controllerPresent then
    if env.controllerRaises then createFallbackDecision env goal
    else env.controllerDecision
  else createFallbackDecision env goal

/-- `IntegratedNeuralSystem._execute_with_neural_monitoring` with its
handler (the simulated execution duration is not modelled and reported as
0). -/
def executeWithNeuralMonitoring (env : NeuralEnv)
    (decision : ExecutiveDecision) (ctx : EmotionalContext)
    (mode : ProcessingMode) (level : NeuralIntegrationLevel) : ExecResult :=
  if env.monitoringRaises then
    { success := some false, execution_time := some 0, quality := none }
  else
    let base := decision.confidence * 0.4
    let integrationBonus := level.val * 0.15
    let modeAdjustment : ℚ :=
      match mode with
      | .EMERGENCY => 0.3
      | .ANALYTICAL => 0.2
      | .INTUITIVE => 0.1
      | .MAINTENANCE => 0.2
    let threatAdjustment : ℚ :=
      if ctx.threat_level = ThreatLevel.CRITICAL then 0.1
      else if ctx.threat_level = ThreatLevel.HIGH then 0.15
      else (6 - ctx.threat_level.val) * 0.1
    let p := min (max (base + integrationBonus + modeAdjustment
      + threatAdjustment) 0.1) 0.95
    { success := some (p > 0.5 : Bool), execution_time := some 0,
      quality := some p }

/-- `IntegratedNeuralSystem._create_processing_result`. -/
def createProcessingResult (goal : PyStr) (mode : ProcessingMode)
    (level : NeuralIntegrationLevel) (decision : ExecutiveDecision)
    (ctx : EmotionalContext) (sysState : SystemState)
    (execResult : ExecResult) : NeuralProcessingResult :=
  { goal := goal, processing_mode := mode, integration_level := level,
    executive_decision := decision, emotional_context := ctx,
    system_state := sysState, success := execResult.success.getD false }

/-- `IntegratedNeuralSystem._create_error_result`: maintenance mode, the
current integration level, the fallback decision and a frustrated
high-threat context (the `system_state` error dict carries neither modelled
key). -/
def createErrorResult (env : NeuralEnv) (goal : PyStr)
    (level : NeuralIntegrationLevel) : NeuralProcessingResult :=
  { goal := goal, processing_mode := .MAINTENANCE, integration_level := level,
    executive_decision := createFallbackDecision env goal,
    emotional_context :=
      { threat_level := .HIGH, emotional_weight := 0.8, confidence := 0.1,
        valence := -0.5, arousal := 0.7, state := .FRUSTRATED },
    system_state := { health_status := none, foundation_stable := none },
    success := false }

/-- The body of `process_goal_neural` inside its `try`: stages 1-6 with
their own handlers, then result assembly, whose raise (the only uncaught
point) escapes to the `except` of the method carrying the integration level
current at that moment. -/
def processGoalBody (env : NeuralEnv) (goal : PyStr) :
    Except (PyStr × NeuralIntegrationLevel) NeuralProcessingResult :=
  let systemState := checkNeuralFoundation env
  let emoCtx := evaluateEmotionalLimbic env goal
  let mode := determineProcessingMode systemState emoCtx
  let level := adaptIntegrationLevel mode
  let decision := executeCognitiveProcessing env goal mode emoCtx
  let execResult := executeWithNeuralMonitoring env decision emoCtx mode level
  if env.assemblyRaises then .error ("result assembly failed".toList, level)
  else .ok (createProcessingResult goal mode level decision emoCtx systemState
    execResult)

/-- `IntegratedNeuralSystem.process_goal_neural`: the outcome of the body, with
any escaped exception answered by `_create_error_result`. The function is
total, so no exception ever reaches the caller. -/
def processGoalNeural (env : NeuralEnv) (goal : PyStr) :
    NeuralProcessingResult :=
  match processGoalBody env goal with
  | .ok r => r
  | .error e => createErrorResult env goal e.2

/-- Sample task used to exercise the scheduler priority bounds. -/
def c8task : CognitiveTask :=
  { task_id := 1, description := "heavy analysis".toList,
    task_type := "analysis".toList, urgency := 1, importance := 1,
    complexity := 1, required_attention := 50, emotional_weight := 1,
    deadline := some 3600 }

/-- Sample controller decision for the pipeline environment. -/
def c2decision : ExecutiveDecision :=
  { chosen_strategy := .RATIONAL, task_sequence := [],
    resource_allocation := [], confidence := 0.9, rationale := [] }

/-- Sample pipeline environment whose result-assembly step raises. -/
def c2env : NeuralEnv :=
  { kernelPresent := false, kernelStatus := [],
    foundationCheckRaises := false, emotionalPresent := false,
    emotionalRaises := false, learned := [], episodic := [], now := 0,
    fresh := fun d => d, controllerPresent := true,
    controllerRaises := false, controllerDecision := c2decision,
    monitoringRaises := false, assemblyRaises := true,
    initialIntegrationLevel := .BASIC, pyHash := fun _ => 0 }

/-- The dangerous goal of the emergency test case. -/
def c4desc : PyStr := "sudo rm -rf /".toList

/-- A healthy foundation state for the emergency scenario. -/
def c4stableState : SystemState :=
  { health_status := some "healthy".toList, foundation_stable := some true }

/-- Sample description for the risk-monotonicity witness (one matched
security keyword). -/
def c5d1 : PyStr := "ab  sudo".toList

/-- Sample description of equal length with two matched security
keywords. -/
def c5d2 : PyStr := "rm  sudo".toList

/-- Sample learned-weight table for the learning witness. -/
def c6table : LearnedTable := [("rmrf".toList, 2)]

/-- Sample description for the learning witness. -/
def c6desc : PyStr := "rmrf now bad".toList

/-- Sample experience with a given identifier, for the eviction witness. -/
def c3exp (i : ℕ) : Experience :=
  { task_id := i, task_pattern := "generic_task".toList,
    task_type := "qa".toList, result_quality := 0.5, success := true,
    execution_time := 1, emotional_impact := 0, threat_assessment := .SAFE,
    timestamp := 0, reinforcement_count := 1, decay_factor := 1 }

/-- A full episodic store of 1000 distinct experiences. -/
def c3mem : List Experience := (List.range 1000).map c3exp

/-- C1. For every sequence of allocate_attention and release_attention
calls on an AttentionManager, the CapacityPool invariant
`allocated + available = total_capacity` holds at every observation point:
after initialisation, after each allocation round and after each
release. -/
theorem attention_capacity_conserved (total : ℚ) (ops : List AMOp) :
    capacityInvariant (amRun (initAM total) ops) := by
  have hstep : ∀ (st : AMState) (op : AMOp),
      capacityInvariant st → capacityInvariant (amStep st op) := by
    intro st op h
    cases op with
    | alloc now tasks =>
        simp only [amStep, allocateAttention, updateAttentionResource,
          capacityInvariant]
        ring
    | release tid =>
        simp only [amStep, releaseAttention]
        cases hf : st.active_tasks.find? (fun e => decide (e.1 = tid)) with
        | none => exact h
        | some e =>
            simp only [capacityInvariant] at h ⊢
            linarith
  have hrun : ∀ (l : List AMOp) (st : AMState),
      capacityInvariant st → capacityInvariant (amRun st l) := by
    intro l
    induction l with
    | nil => intro st h; exact h
    | cons op rest ih =>
        intro st h
        exact ih _ (hstep st op h)
  exact hrun ops _ (by simp [initAM, capacityInvariant])

/-- C7. For every system state and emotional context, the processing mode
computed by `_determine_processing_mode` equals the cascade exactly as the
specification words it: EMERGENCY on threat at least HIGH or unstable
foundation, else INTUITIVE on arousal above 0.6, else ANALYTICAL on
confidence above 0.4 or emotional weight above 0.6, else MAINTENANCE (the
redundant second HIGH test of the source is subsumed by the first branch). -/
theorem mode_cascade_exact (s : SystemState) (c : EmotionalContext) :
    determineProcessingMode s c = specModeCascade s c := by
  unfold determineProcessingMode specModeCascade
  split_ifs with h1 h2 <;> first
    | rfl
    | exact absurd (Or.inl (by rw [h2]; norm_num [ThreatLevel.val])) h1

/-- C8. For every candidate task with urgency, importance, complexity and
emotional weight in the unit interval and any deadline, the deadline
pressure is non-negative and the priority returned by
`_calculate_priority` lies in the unit interval (the upper clamp
`min(total, 1.0)` caps weighted sums exceeding 1). -/
theorem priority_in_unit_interval (now : ℚ) (t : CognitiveTask)
    (hu0 : 0 ≤ t.urgency) (hu1 : t.urgency ≤ 1)
    (hi0 : 0 ≤ t.importance) (hi1 : t.importance ≤ 1)
    (hc0 : 0 ≤ t.complexity) (hc1 : t.complexity ≤ 1)
    (he0 : 0 ≤ t.emotional_weight) (he1 : t.emotional_weight ≤ 1) :
    0 ≤ deadlinePressure now t ∧
      0 ≤ calculatePriority now t ∧ calculatePriority now t ≤ 1 := by
  have hdp : 0 ≤ deadlinePressure now t := by
    unfold deadlinePressure
    cases t.deadline with
    | none => norm_num
    | some d =>
        dsimp only
        split_ifs
        · exact le_max_left 0 _
        · norm_num
  refine ⟨hdp, ?_, ?_⟩
  · unfold calculatePriority
    have h1 : 0 ≤ t.urgency * t.importance := mul_nonneg hu0 hi0
    refine le_min ?_ (by norm_num)
    nlinarith
  · exact min_le_right _ 1

/-- Witness for the priority bounds at a task whose weighted sum exceeds
1 (all unit fields at 1 and a one-hour deadline). -/
theorem priority_in_unit_interval_witness :
    (0 ≤ c8task.urgency ∧ c8task.urgency ≤ 1) ∧
      0 ≤ deadlinePressure 0 c8task ∧
        0 ≤ calculatePriority 0 c8task ∧ calculatePriority 0 c8task ≤ 1 :=
  ⟨⟨by decide, by decide⟩,
    priority_in_unit_interval 0 c8task (by decide) (by decide) (by decide)
      (by decide) (by decide) (by decide) (by decide) (by decide)⟩

/-- C9. `assess_threat` never propagates an exception: the checked wrapper
is total, a raise of any internal step is answered by the fixed fallback
assessment `(ThreatLevel.MODERATE, 3.0)`, and without a raise it returns
the computed assessment. -/
theorem assess_threat_never_raises (d t : PyStr) (L : LearnedTable) :
    assessThreatChecked true d t L = (ThreatLevel.MODERATE, 3) ∧
      assessThreatChecked false d t L = assessThreat d t L :=
  ⟨rfl, rfl⟩

/-- C10. `RewardSystem.calculate_reward` always returns a non-negative
value: negative totals are clipped to 0 by the final `max(total, 0.0)`,
and a raise of any internal step is answered by `0.0`. -/
theorem reward_nonneg (raises : Bool) (res : TaskResult)
    (ectx : EmotionalContext) :
    0 ≤ calculateRewardChecked raises res ectx ∧
      calculateRewardChecked true res ectx = 0 := by
  refine ⟨?_, rfl⟩
  unfold calculateRewardChecked
  split_ifs
  · exact le_refl 0
  · dsimp only [calculateReward]
    exact le_max_right _ 0


/-- The threat score of the emergency scenario: two matched security
keywords (`rm ` and `sudo`) times weight 5, no other matches, times the
admin multiplier 4, plus the length factor 0.13. -/
theorem c4_score : rawThreatScore c4desc "admin".toList [] = 4013 / 100 := by
  have hcat : catTotalScore (pyLower c4desc) = 10 := by
    have h1 : (categoryMatches securityThreats (pyLower c4desc)).length = 2 := by
      decide
    have h2 : (categoryMatches resourceIntensive (pyLower c4desc)).length = 0 := by
      decide
    have h3 : (categoryMatches complexityMarkers (pyLower c4desc)).length = 0 := by
      decide
    have h4 : (categoryMatches destructiveOperations (pyLower c4desc)).length = 0 := by
      decide
    simp only [catTotalScore, threatCategories, List.map_cons, List.map_nil,
      h1, h2, h3, h4]
    norm_num
  have hlf : lengthFactor c4desc = 13 / 100 := by
    have h : c4desc.length = 13 := by decide
    rw [lengthFactor, h, min_eq_left (by norm_num)]
    norm_num
  have hmul : typeRiskMultiplier "admin".toList = 4 := by decide
  have hlearn : learnedScore [] (pyLower c4desc) = 0 := rfl
  show (catTotalScore (pyLower c4desc) + learnedScore [] (pyLower c4desc))
        * typeRiskMultiplier "admin".toList + lengthFactor c4desc = 4013 / 100
  rw [hcat, hlearn, hmul, hlf]
  norm_num

/-- C4. For the description "sudo rm -rf /" with task type "admin", empty
learned weights and empty episodic memory: the assessment is CRITICAL with
score above 10; with a stable foundation the selected processing mode is
EMERGENCY; and the resulting executive decision is the emergency response,
strategy CONSERVATIVE with confidence 0.6. -/
theorem sudo_rm_emergency_behavior (env : NeuralEnv) (now : ℚ)
    (fresh : ℚ → ℚ) :
    (assessThreat c4desc "admin".toList []).1 = ThreatLevel.CRITICAL ∧
    (assessThreat c4desc "admin".toList []).2 > 10 ∧
    determineProcessingMode c4stableState
      (evaluateTaskEmotion c4desc "admin".toList [] [] now fresh) =
      ProcessingMode.EMERGENCY ∧
    (executeCognitiveProcessing env c4desc
      (determineProcessingMode c4stableState
        (evaluateTaskEmotion c4desc "admin".toList [] [] now fresh))
      (evaluateTaskEmotion c4desc "admin".toList [] [] now fresh)).chosen_strategy
      = DecisionStrategy.CONSERVATIVE ∧
    (executeCognitiveProcessing env c4desc
      (determineProcessingMode c4stableState
        (evaluateTaskEmotion c4desc "admin".toList [] [] now fresh))
      (evaluateTaskEmotion c4desc "admin".toList [] [] now fresh)).confidence
      = 0.6 := by
  have hlevel : (assessThreat c4desc "admin".toList []).1 = ThreatLevel.CRITICAL := by
    show calculateThreatLevel (rawThreatScore c4desc "admin".toList []) =
      ThreatLevel.CRITICAL
    rw [c4_score, calculateThreatLevel]
    rw [if_neg (by norm_num), if_neg (by norm_num), if_neg (by norm_num),
      if_neg (by norm_num)]
  have hscore : (assessThreat c4desc "admin".toList []).2 > 10 := by
    show rawThreatScore c4desc "admin".toList [] > 10
    rw [c4_score]
    norm_num
  have hctx : (evaluateTaskEmotion c4desc "admin".toList [] [] now fresh).threat_level
      = ThreatLevel.CRITICAL := hlevel
  have hmode : determineProcessingMode c4stableState
      (evaluateTaskEmotion c4desc "admin".toList [] [] now fresh) =
      ProcessingMode.EMERGENCY := by
    rw [determineProcessingMode, hctx]
    rw [if_pos (Or.inl (by norm_num [ThreatLevel.val]))]
  refine ⟨hlevel, hscore, hmode, ?_, ?_⟩
  · rw [hmode]; rfl
  · rw [hmode]; rfl

/-- C2. Whenever an internal failure escapes to the top-level handler of
`process_goal_neural` (the body evaluates to an error), the call still
returns a result, and the executive decision of that result is the fallback:
strategy CONSERVATIVE with low confidence 0.3. Totality of
`processGoalNeural` is the never-raises half of the contract. -/
theorem process_goal_error_is_conservative (env : NeuralEnv) (goal msg : PyStr)
    (lvl : NeuralIntegrationLevel)
    (h : processGoalBody env goal = .error (msg, lvl)) :
    (processGoalNeural env goal).executive_decision.chosen_strategy =
        DecisionStrategy.CONSERVATIVE ∧
      (processGoalNeural env goal).executive_decision.confidence = 0.3 := by
  unfold processGoalNeural
  rw [h]
  exact ⟨rfl, rfl⟩

/-- Witness for the error path: in an environment whose result assembly
raises, the body errors and the returned decision is conservative with
confidence 0.3. -/
theorem process_goal_error_is_conservative_witness :
    processGoalBody c2env "goal".toList =
        .error ("result assembly failed".toList, NeuralIntegrationLevel.HIGH) ∧
      (processGoalNeural c2env "goal".toList).executive_decision.chosen_strategy =
          DecisionStrategy.CONSERVATIVE ∧
        (processGoalNeural c2env "goal".toList).executive_decision.confidence = 0.3 :=
  ⟨rfl, process_goal_error_is_conservative c2env "goal".toList
    "result assembly failed".toList NeuralIntegrationLevel.HIGH rfl⟩

/-- The type-risk multiplier is non-negative in every branch. -/
theorem typeRiskMultiplier_nonneg (t : PyStr) : 0 ≤ typeRiskMultiplier t := by
  unfold typeRiskMultiplier
  dsimp only
  split_ifs <;> norm_num

/-- C5. With task type, learned-weight contribution and description length
held fixed, the risk score of `assess_threat` is monotonically
non-decreasing in the per-category matched-keyword counts and in the
matched learned-pattern contribution: a description matching at least as
many keywords in every category, with an at-least-as-large matched learned
contribution, never gets a smaller score. -/
theorem risk_score_monotone (d1 d2 t : PyStr) (L1 L2 : LearnedTable)
    (hlen : d1.length = d2.length)
    (hcat : ∀ c ∈ threatCategories,
      (categoryMatches c.1 (pyLower d1)).length ≤
        (categoryMatches c.1 (pyLower d2)).length)
    (hlearn : learnedScore L1 (pyLower d1) ≤ learnedScore L2 (pyLower d2)) :
    rawThreatScore d1 t L1 ≤ rawThreatScore d2 t L2 := by
  have hm : 0 ≤ typeRiskMultiplier t := typeRiskMultiplier_nonneg t
  have h1 := hcat (securityThreats, 5) (by simp [threatCategories])
  have h2 := hcat (resourceIntensive, 3) (by simp [threatCategories])
  have h3 := hcat (complexityMarkers, 2) (by simp [threatCategories])
  have h4 := hcat (destructiveOperations, 4) (by simp [threatCategories])
  have hcatsum : catTotalScore (pyLower d1) ≤ catTotalScore (pyLower d2) := by
    simp only [catTotalScore, threatCategories, List.map_cons, List.map_nil,
      List.sum_cons, List.sum_nil]
    have c1 : ((categoryMatches securityThreats (pyLower d1)).length : ℚ) ≤
        (categoryMatches securityThreats (pyLower d2)).length := by
      exact_mod_cast h1
    have c2 : ((categoryMatches resourceIntensive (pyLower d1)).length : ℚ) ≤
        (categoryMatches resourceIntensive (pyLower d2)).length := by
      exact_mod_cast h2
    have c3 : ((categoryMatches complexityMarkers (pyLower d1)).length : ℚ) ≤
        (categoryMatches complexityMarkers (pyLower d2)).length := by
      exact_mod_cast h3
    have c4 : ((categoryMatches destructiveOperations (pyLower d1)).length : ℚ) ≤
        (categoryMatches destructiveOperations (pyLower d2)).length := by
      exact_mod_cast h4
    linarith
  have hlf : lengthFactor d1 = lengthFactor d2 := by
    unfold lengthFactor
    rw [hlen]
  show (catTotalScore (pyLower d1) + learnedScore L1 (pyLower d1))
      * typeRiskMultiplier t + lengthFactor d1 ≤
    (catTotalScore (pyLower d2) + learnedScore L2 (pyLower d2))
      * typeRiskMultiplier t + lengthFactor d2
  have := mul_le_mul_of_nonneg_right (add_le_add hcatsum hlearn) hm
  linarith [hlf.le, hlf.ge]

/-- Witness for score monotonicity: of two equal-length descriptions, the
second matches one more security keyword than the first, and its score is
no smaller. -/
theorem risk_score_monotone_witness :
    c5d1.length = c5d2.length ∧
      (∀ c ∈ threatCategories,
        (categoryMatches c.1 (pyLower c5d1)).length ≤
          (categoryMatches c.1 (pyLower c5d2)).length) ∧
      rawThreatScore c5d1 "general".toList [] ≤
        rawThreatScore c5d2 "general".toList [] :=
  ⟨by decide, by decide,
    risk_score_monotone c5d1 c5d2 "general".toList [] [] (by decide)
      (by decide) (le_refl 0)⟩

/-- The keyed update map used by `learn_from_outcome` keeps keys, so the
lookup predicate composes to itself. -/
theorem keyedMap_pred (k q : PyStr) (g : ℚ → ℚ) :
    ((fun e : PyStr × ℚ => decide (e.1 = q)) ∘
      (fun e : PyStr × ℚ => if e.1 = k then (e.1, g e.2) else e)) =
      fun e : PyStr × ℚ => decide (e.1 = q) := by
  funext e
  by_cases h : e.1 = k <;> simp [h]

/-- Lookup at the updated key after a keyed map: the old value through `g`
when the key is present, else the default 0. -/
theorem tableGet_keyedMap_same (t : LearnedTable) (k : PyStr) (g : ℚ → ℚ) :
    tableGet (t.map (fun e => if e.1 = k then (e.1, g e.2) else e)) k =
      if tableHas t k then g (tableGet t k) else 0 := by
  unfold tableGet tableHas
  rw [List.find?_map, keyedMap_pred]
  cases hf : t.find? (fun e => decide (e.1 = k)) with
  | none => simp
  | some e =>
      have hk : e.1 = k := by simpa using List.find?_some hf
      simp [Option.map_some, hk]

/-- Lookup at any other key is untouched by a keyed map. -/
theorem tableGet_keyedMap_ne (t : LearnedTable) (k q : PyStr) (g : ℚ → ℚ)
    (h : q ≠ k) :
    tableGet (t.map (fun e => if e.1 = k then (e.1, g e.2) else e)) q =
      tableGet t q := by
  unfold tableGet
  rw [List.find?_map, keyedMap_pred]
  cases hf : t.find? (fun e => decide (e.1 = q)) with
  | none => simp
  | some e =>
      have hk : e.1 = q := by simpa using List.find?_some hf
      have hne : ¬ e.1 = k := by rw [hk]; exact h
      simp [Option.map_some, hne]

/-- Key presence is invariant under a keyed map. -/
theorem tableHas_keyedMap (t : LearnedTable) (k q : PyStr) (g : ℚ → ℚ) :
    tableHas (t.map (fun e => if e.1 = k then (e.1, g e.2) else e)) q =
      tableHas t q := by
  unfold tableHas
  rw [List.find?_map, keyedMap_pred]
  cases hf : t.find? (fun e => decide (e.1 = q)) <;> simp

/-- A missing key looks up to the defaultdict default 0. -/
theorem tableGet_of_not_has (t : LearnedTable) (k : PyStr)
    (h : tableHas t k = false) : tableGet t k = 0 := by
  unfold tableGet
  unfold tableHas at h
  cases hf : t.find? (fun e => decide (e.1 = k)) with
  | none => rfl
  | some e => rw [hf] at h; simp at h

/-- `t[k] += x` adds `x` at `k` (lookup view). -/
theorem tableGet_incr_same (t : LearnedTable) (k : PyStr) (x : ℚ) :
    tableGet (tableIncr t k x) k = tableGet t k + x := by
  unfold tableIncr
  by_cases h : tableHas t k
  · rw [if_pos h]
    rw [tableGet_keyedMap_same t k (fun v => v + x), if_pos h]
  · rw [if_neg h]
    have h0 : tableGet t k = 0 := tableGet_of_not_has t k (by simpa using h)
    unfold tableGet at h0 ⊢
    rw [List.find?_append]
    cases hf : t.find? (fun e => decide (e.1 = k)) with
    | none => simp
    | some e => rw [hf] at h0; unfold tableHas at h; rw [hf] at h; simp at h
  
/-- `t[k] += x` leaves other keys unchanged (lookup view). -/
theorem tableGet_incr_ne (t : LearnedTable) (k q : PyStr) (x : ℚ)
    (h : q ≠ k) : tableGet (tableIncr t k x) q = tableGet t q := by
  unfold tableIncr
  by_cases hh : tableHas t k
  · rw [if_pos hh]
    exact tableGet_keyedMap_ne t k q (fun v => v + x) h
  · rw [if_neg hh]
    unfold tableGet
    rw [List.find?_append]
    cases hf : t.find? (fun e => decide (e.1 = q)) with
    | none => simp [Ne.symm h]
    | some e => simp

/-- The final cap pass takes every lookup to `min(w, 5)` (a missing key
reads 0 on both sides). -/
theorem tableGet_capTable (t : LearnedTable) (k : PyStr) :
    tableGet (capTable t) k = min (tableGet t k) 5 := by
  unfold tableGet capTable
  rw [List.find?_map]
  have hp : ((fun e : PyStr × ℚ => decide (e.1 = k)) ∘
      (fun e : PyStr × ℚ => (e.1, min e.2 5))) =
      fun e : PyStr × ℚ => decide (e.1 = k) := rfl
  rw [hp]
  cases hf : t.find? (fun e => decide (e.1 = k)) with
  | none => simp
  | some e => simp

/-- Lookup after the failure-branch fold of `learn_from_outcome`: with
distinct tokens, a token longer than 3 characters gains exactly one
increment of `v`; every other key is untouched. -/
theorem failureFold_get (v : ℚ) (words : List PyStr) :
    ∀ (t : LearnedTable) (w : PyStr), words.Nodup →
      tableGet (words.foldl
        (fun acc u => if u.length > 3 then tableIncr acc u v else acc) t) w =
        if w ∈ words ∧ w.length > 3 then tableGet t w + v else tableGet t w := by
  induction words with
  | nil => intro t w _; simp
  | cons u ws ih =>
      intro t w hnd
      rw [List.nodup_cons] at hnd
      obtain ⟨hu, hnd2⟩ := hnd
      rw [List.foldl_cons, ih _ w hnd2]
      by_cases hw : w = u
      · subst hw
        rw [if_neg (fun hc => hu hc.1)]
        by_cases hlen : w.length > 3
        · rw [if_pos hlen, tableGet_incr_same,
            if_pos ⟨List.mem_cons_self w ws, hlen⟩]
        · rw [if_neg hlen, if_neg (fun hc => hlen hc.2)]
      · have h1 : tableGet (if u.length > 3 then tableIncr t u v else t) w
            = tableGet t w := by
          by_cases hlen : u.length > 3
          · rw [if_pos hlen]; exact tableGet_incr_ne t u w v hw
          · rw [if_neg hlen]
        rw [h1]
        by_cases hc : w ∈ ws ∧ w.length > 3
        · rw [if_pos hc, if_pos ⟨List.mem_cons_of_mem u hc.1, hc.2⟩]
        · rw [if_neg hc, if_neg
            (fun hcc => hc ⟨(List.mem_cons.mp hcc.1).resolve_left hw, hcc.2⟩)]

/-- Lookup after the success-branch fold of `learn_from_outcome`: with
distinct tokens, a token already present in the table is scaled exactly
once by 0.95; every other key is untouched. -/
theorem successFold_get (words : List PyStr) :
    ∀ (t : LearnedTable) (w : PyStr), words.Nodup →
      tableGet (words.foldl
        (fun acc u => if tableHas acc u then
          acc.map (fun e => if e.1 = u then (e.1, e.2 * 0.95) else e)
        else acc) t) w =
        if w ∈ words ∧ tableHas t w = true then tableGet t w * 0.95
        else tableGet t w := by
  induction words with
  | nil => intro t w _; simp
  | cons u ws ih =>
      intro t w hnd
      rw [List.nodup_cons] at hnd
      obtain ⟨hu, hnd2⟩ := hnd
      rw [List.foldl_cons, ih _ w hnd2]
      have hhasinv : tableHas (if tableHas t u then
          t.map (fun e => if e.1 = u then (e.1, e.2 * 0.95) else e)
        else t) w = tableHas t w := by
        by_cases hhas : tableHas t u
        · rw [if_pos hhas]
          exact tableHas_keyedMap t u w (fun v => v * 0.95)
        · rw [if_neg hhas]
      rw [hhasinv]
      by_cases hw : w = u
      · subst hw
        rw [if_neg (fun hc => hu hc.1)]
        by_cases hhas : tableHas t w
        · rw [if_pos hhas, tableGet_keyedMap_same t w (fun v => v * 0.95),
            if_pos hhas, if_pos ⟨List.mem_cons_self w ws, hhas⟩]
        · rw [if_neg hhas,
            if_neg (fun hc => hhas hc.2)]
      · have h1 : tableGet (if tableHas t u then
            t.map (fun e => if e.1 = u then (e.1, e.2 * 0.95) else e)
          else t) w = tableGet t w := by
          by_cases hhas : tableHas t u
          · rw [if_pos hhas]
            exact tableGet_keyedMap_ne t u w (fun v => v * 0.95) hw
          · rw [if_neg hhas]
        rw [h1]
        by_cases hc : w ∈ ws ∧ tableHas t w = true
        · rw [if_pos hc, if_pos ⟨List.mem_cons_of_mem u hc.1, hc.2⟩]
        · rw [if_neg hc, if_neg
            (fun hcc => hc ⟨(List.mem_cons.mp hcc.1).resolve_left hw, hcc.2⟩)]

/-- C6. Lookup characterization of `learn_from_outcome` when the
tokens of the description are distinct and the table respects the 5.0 cap: on
failure with severity above 0.5, every token longer than 3 characters has
its weight increased by `severity * 0.5` and capped at 5.0; on success,
every token that already has a learned weight is multiplied by 0.95; all
other weights are unchanged. -/
theorem learn_from_outcome_spec (t : LearnedTable) (desc : PyStr)
    (succ : Bool) (sev : ℚ) (w : PyStr)
    (hnodup : (splitWs (pyLower desc)).Nodup)
    (hcap : ∀ e ∈ t, e.2 ≤ 5) :
    tableGet (learnFromOutcome t desc succ sev) w =
      if succ = true then
        (if w ∈ splitWs (pyLower desc) ∧ tableHas t w = true then
          tableGet t w * 0.95
        else tableGet t w)
      else if sev > 0.5 then
        (if w ∈ splitWs (pyLower desc) ∧ w.length > 3 then
          min (tableGet t w + sev * 0.5) 5
        else tableGet t w)
      else tableGet t w := by
  have hg5 : tableGet t w ≤ 5 := by
    unfold tableGet
    cases hf : t.find? (fun e => decide (e.1 = w)) with
    | none => norm_num
    | some e => exact hcap e (List.mem_of_find?_eq_some hf)
  unfold learnFromOutcome
  dsimp only
  by_cases hs : succ = true
  · have hA : ¬ (¬ succ = true ∧ sev > 0.5) := fun hc => hc.1 hs
    rw [if_neg hA, if_pos hs, tableGet_capTable,
      successFold_get _ t w hnodup, if_pos hs]
    by_cases hc : w ∈ splitWs (pyLower desc) ∧ tableHas t w = true
    · rw [if_pos hc, min_eq_left (by linarith)]
    · rw [if_neg hc, min_eq_left hg5]
  · by_cases hsev : sev > 0.5
    · rw [if_pos ⟨hs, hsev⟩, tableGet_capTable,
        failureFold_get _ _ t w hnodup, if_neg hs, if_pos hsev]
      by_cases hc : w ∈ splitWs (pyLower desc) ∧ w.length > 3
      · rw [if_pos hc, if_pos hc]
      · rw [if_neg hc, min_eq_left hg5, if_neg hc]
    · have hA : ¬ (¬ succ = true ∧ sev > 0.5) := fun hc => hsev hc.2
      rw [if_neg hA, if_neg hs, tableGet_capTable, if_neg hs, if_neg hsev,
        min_eq_left hg5]

/-- Witness for the learning characterization: failing with severity 1 on
a distinct-token description increases the long token `rmrf` by 0.5,
capped at 5. -/
theorem learn_from_outcome_spec_witness :
    (splitWs (pyLower c6desc)).Nodup ∧
      tableGet (learnFromOutcome c6table c6desc false 1) "rmrf".toList =
        min (tableGet c6table "rmrf".toList + 1 * 0.5) 5 := by
  have hmem : "rmrf".toList ∈ splitWs (pyLower c6desc) := by decide
  have hlen4 : ("rmrf".toList).length > 3 := by decide
  refine ⟨by decide, ?_⟩
  rw [learn_from_outcome_spec c6table c6desc false 1 "rmrf".toList
    (by decide) (by decide)]
  rw [if_neg (fun hc => Bool.false_ne_true hc),
    if_pos (show (1 : ℚ) > 0.5 by norm_num), if_pos ⟨hmem, hlen4⟩]

/-- Transitivity of the `(score, id)` tuple order. -/
theorem scoreLe_trans (a b c : ℚ × ℕ) (hab : scoreLe a b = true)
    (hbc : scoreLe b c = true) : scoreLe a c = true := by
  simp only [scoreLe, decide_eq_true_eq] at hab hbc ⊢
  rcases hab with h1 | ⟨h1, h2⟩ <;> rcases hbc with h3 | ⟨h3, h4⟩
  · exact Or.inl (lt_trans h1 h3)
  · exact Or.inl (h3 ▸ h1)
  · exact Or.inl (h1 ▸ h3)
  · exact Or.inr ⟨h1.trans h3, le_trans h2 h4⟩

/-- Totality of the `(score, id)` tuple order. -/
theorem scoreLe_total (a b : ℚ × ℕ) : (scoreLe a b || scoreLe b a) = true := by
  simp only [scoreLe, Bool.or_eq_true, decide_eq_true_eq]
  rcases lt_trichotomy a.1 b.1 with h | h | h
  · exact Or.inl (Or.inl h)
  · rcases le_total a.2 b.2 with h2 | h2
    · exact Or.inl (Or.inr ⟨h, h2⟩)
    · exact Or.inr (Or.inr ⟨h.symm, h2⟩)
  · exact Or.inr (Or.inl h)

/-- Deleting one identifier from a store with distinct identifiers removes
exactly one entry. -/
theorem filter_ne_length (l : List Experience) (r : Experience)
    (hnd : (l.map Experience.task_id).Nodup) (hr : r ∈ l) :
    (l.filter (fun e => decide (¬ e.task_id = r.task_id))).length + 1
      = l.length := by
  induction l with
  | nil => cases hr
  | cons e rest ih =>
      rw [List.map_cons, List.nodup_cons] at hnd
      obtain ⟨hne, hnd2⟩ := hnd
      by_cases hid : e.task_id = r.task_id
      · have hall : ∀ x ∈ rest,
            (fun x : Experience => decide (¬ x.task_id = r.task_id)) x = true := by
          intro x hx
          simp only [decide_eq_true_eq]
          intro hxe
          have hmem' : x.task_id ∈ rest.map Experience.task_id :=
            List.mem_map_of_mem _ hx
          rw [hxe, ← hid] at hmem'
          exact hne hmem'
        rw [List.filter_cons, if_neg (by simp [hid]),
          List.filter_eq_self.mpr hall, List.length_cons]
      · have hrrest : r ∈ rest := by
          cases List.mem_cons.mp hr with
          | inl h => exact absurd (h ▸ rfl) hid
          | inr h => exact h
        rw [List.filter_cons, if_pos (by simp [hid]), List.length_cons,
          List.length_cons]
        have := ih hnd2 hrrest
        omega

/-- The eviction pass on a store one over capacity with distinct
identifiers removes exactly one entry, and that entry has minimal
importance among all stored entries. -/
theorem manage_evicts_min (maxE : ℕ) (fresh : ℚ → ℚ) (now : ℚ)
    (mem : List Experience)
    (hlen : mem.length = maxE + 1)
    (hnd : (mem.map Experience.task_id).Nodup) :
    ∃ r ∈ mem,
      (∀ e ∈ mem, importanceScore fresh now r ≤ importanceScore fresh now e) ∧
      manageMemoryCapacity maxE fresh now mem =
        mem.filter (fun e => decide (¬ e.task_id = r.task_id)) ∧
      (manageMemoryCapacity maxE fresh now mem).length = maxE := by
  have hgt : mem.length > maxE := by omega
  have hk : mem.length - maxE = 1 := by omega
  have hperm : ((mem.map (fun e => (importanceScore fresh now e, e.task_id))).mergeSort
      scoreLe).Perm (mem.map (fun e => (importanceScore fresh now e, e.task_id))) :=
    List.mergeSort_perm _ scoreLe
  have hlen2 : ((mem.map (fun e => (importanceScore fresh now e, e.task_id))).mergeSort
      scoreLe).length = maxE + 1 := by
    rw [hperm.length_eq, List.length_map, hlen]
  obtain ⟨s, rest, hcons⟩ : ∃ s rest,
      (mem.map (fun e => (importanceScore fresh now e, e.task_id))).mergeSort
        scoreLe = s :: rest := by
    cases hsval : (mem.map (fun e => (importanceScore fresh now e, e.task_id))).mergeSort
        scoreLe with
    | nil => rw [hsval] at hlen2; simp at hlen2
    | cons s rest => exact ⟨s, rest, rfl⟩
  have hsmem : s ∈ mem.map (fun e => (importanceScore fresh now e, e.task_id)) :=
    hperm.mem_iff.mp (hcons ▸ List.mem_cons_self s rest)
  obtain ⟨r, hrmem, hrs⟩ := List.mem_map.mp hsmem
  have hs1 : s.1 = importanceScore fresh now r := ((Prod.ext_iff.mp hrs).1).symm
  have hs2 : s.2 = r.task_id := ((Prod.ext_iff.mp hrs).2).symm
  have hsorted : List.Pairwise (fun a b => scoreLe a b = true)
      ((mem.map (fun e => (importanceScore fresh now e, e.task_id))).mergeSort
        scoreLe) :=
    List.sorted_mergeSort scoreLe_trans scoreLe_total _
  have hmin : ∀ e ∈ mem,
      importanceScore fresh now r ≤ importanceScore fresh now e := by
    intro e he
    have hes : (importanceScore fresh now e, e.task_id) ∈
        mem.map (fun x => (importanceScore fresh now x, x.task_id)) :=
      List.mem_map_of_mem _ he
    have hes2 := hperm.mem_iff.mpr hes
    rw [hcons] at hes2
    cases List.mem_cons.mp hes2 with
    | inl h =>
        have := (Prod.ext_iff.mp h).1
        rw [hs1] at this
        exact le_of_eq this.symm
    | inr h =>
        rw [hcons] at hsorted
        have hle := (List.pairwise_cons.mp hsorted).1 _ h
        simp only [scoreLe, decide_eq_true_eq] at hle
        rcases hle with hlt | ⟨heq, _⟩
        · rw [hs1] at hlt; exact le_of_lt hlt
        · rw [hs1] at heq; exact le_of_eq heq
  have hremove : (((mem.map (fun e => (importanceScore fresh now e, e.task_id))).mergeSort
      scoreLe).take (mem.length - maxE)).map Prod.snd = [r.task_id] := by
    rw [hk, hcons]
    simp [hs2]
  have hfeq : manageMemoryCapacity maxE fresh now mem =
      mem.filter (fun e => decide (¬ e.task_id = r.task_id)) := by
    unfold manageMemoryCapacity
    rw [if_pos hgt]
    dsimp only
    simp only [hremove]
    refine List.filter_congr ?_
    intro x _
    simp [List.mem_singleton]
  refine ⟨r, hrmem, hmin, hfeq, ?_⟩
  rw [hfeq]
  have := filter_ne_length mem r hnd hrmem
  omega

/-- Reinforcement keeps the task identifier. -/
theorem reinforce_id (q : ℚ) (e : Experience) :
    (reinforceExperience q e).task_id = e.task_id := rfl

/-- Inserting a record whose identifier is fresh appends it. -/
theorem dictInsertExp_fresh (mem : List Experience) (x : Experience)
    (h : ∀ e ∈ mem, e.task_id ≠ x.task_id) :
    dictInsertExp mem x = mem ++ [x] := by
  have hfalse : mem.any (fun e => decide (e.task_id = x.task_id)) = false :=
    List.any_eq_false.mpr (by intro e he; simpa using h e he)
  unfold dictInsertExp
  rw [hfalse, if_neg (fun hc => Bool.false_ne_true hc)]

/-- Identifiers after the pre-eviction phase of `store_experience`: the
reinforcement pass keeps every identifier and the identifier of the fresh record
is appended. -/
theorem storePreEvict_ids (mem : List Experience) (tid : ℕ)
    (desc ttype : PyStr) (q : ℚ) (succ : Bool) (etime : ℚ)
    (ectx : EmotionalContext) (now : ℚ)
    (hfresh2 : ∀ e ∈ mem, e.task_id ≠ tid) :
    (storePreEvict mem tid desc ttype q succ etime ectx now).map
        Experience.task_id = mem.map Experience.task_id ++ [tid] := by
  unfold storePreEvict
  dsimp only
  rw [dictInsertExp_fresh]
  · rw [List.map_append, List.map_map]
    congr 1
    refine List.map_congr_left ?_
    intro e _
    dsimp only [Function.comp]
    by_cases h : e.task_id ∈
        ((findSimilarExperiences (extractTaskPattern desc ttype) ttype mem).take 3).map
          Experience.task_id
    · rw [if_pos h, reinforce_id]
    · rw [if_neg h]
  · intro e he
    have h1 : e.task_id ∈ (mem.map (fun e =>
        if e.task_id ∈ ((findSimilarExperiences (extractTaskPattern desc ttype)
            ttype mem).take 3).map Experience.task_id
        then reinforceExperience q e else e)).map Experience.task_id :=
      List.mem_map_of_mem _ he
    rw [List.map_map] at h1
    obtain ⟨x, hx, hxe⟩ := List.mem_map.mp h1
    have hxid : e.task_id = x.task_id := by
      rw [← hxe]
      dsimp only [Function.comp]
      by_cases h : x.task_id ∈ ((findSimilarExperiences
          (extractTaskPattern desc ttype) ttype mem).take 3).map
          Experience.task_id
      · show (if _ then reinforceExperience q x else x).task_id = x.task_id
        rw [if_pos h, reinforce_id]
      · show (if _ then reinforceExperience q x else x).task_id = x.task_id
        rw [if_neg h]
    rw [hxid]
    exact hfresh2 x hx

/-- C3. Storing a 1001st experience with a fresh identifier into an
episodic store of 1000 entries with distinct identifiers and
`max_episodic_memories = 1000`: after the store-then-evict pass the store
holds exactly 1000 entries, and the single removed entry has minimal
importance score (per the reinforcement/success/emotional/freshness
formula) among the 1001 entries present before eviction. -/
theorem store_then_evict_1001 (fresh : ℚ → ℚ) (now : ℚ)
    (mem : List Experience) (tid : ℕ) (desc ttype : PyStr) (q : ℚ)
    (succ : Bool) (etime : ℚ) (ectx : EmotionalContext)
    (hlen : mem.length = 1000)
    (hnd : (mem.map Experience.task_id).Nodup)
    (hfresh2 : ∀ e ∈ mem, e.task_id ≠ tid) :
    (storeExperience 1000 fresh mem tid desc ttype q succ etime ectx
      now).length = 1000 ∧
    ∃ r ∈ storePreEvict mem tid desc ttype q succ etime ectx now,
      (∀ e ∈ storePreEvict mem tid desc ttype q succ etime ectx now,
        importanceScore fresh now r ≤ importanceScore fresh now e) ∧
      storeExperience 1000 fresh mem tid desc ttype q succ etime ectx now =
        (storePreEvict mem tid desc ttype q succ etime ectx now).filter
          (fun e => decide (¬ e.task_id = r.task_id)) := by
  have hids := storePreEvict_ids mem tid desc ttype q succ etime ectx now hfresh2
  have hplen : (storePreEvict mem tid desc ttype q succ etime ectx now).length
      = 1000 + 1 := by
    have h1 := congrArg List.length hids
    rw [List.length_map, List.length_append, List.length_map, hlen] at h1
    simpa using h1
  have hpnd : ((storePreEvict mem tid desc ttype q succ etime ectx now).map
      Experience.task_id).Nodup := by
    rw [hids, List.nodup_append]
    refine ⟨hnd, List.nodup_singleton tid, ?_⟩
    intro a ha hb
    rw [List.mem_singleton] at hb
    obtain ⟨e, he, hei⟩ := List.mem_map.mp ha
    exact hfresh2 e he (hei.trans hb)
  obtain ⟨r, hr, hmin, heq, hl⟩ :=
    manage_evicts_min 1000 fresh now _ hplen hpnd
  exact ⟨hl, r, hr, hmin, heq⟩

/-- The identifiers of the sample store are exactly `0..999`. -/
theorem c3mem_ids : c3mem.map Experience.task_id = List.range 1000 := by
  unfold c3mem
  rw [List.map_map]
  have h : List.map (Experience.task_id ∘ c3exp) (List.range 1000) =
      List.map id (List.range 1000) :=
    List.map_congr_left (fun a _ => rfl)
  rw [h, List.map_id]

/-- Witness for the store-then-evict pass: a concrete 1000-entry store, a
fresh 1001st experience, and the guaranteed size/minimality conclusion. -/
theorem store_then_evict_1001_witness :
    c3mem.length = 1000 ∧
    ((storeExperience 1000 (fun d => d) c3mem 1000 "solve the task".toList
        "qa".toList 0.5 true 1 defaultEmotionalCtx 0).length = 1000 ∧
      ∃ r ∈ storePreEvict c3mem 1000 "solve the task".toList "qa".toList 0.5
          true 1 defaultEmotionalCtx 0,
        (∀ e ∈ storePreEvict c3mem 1000 "solve the task".toList "qa".toList
            0.5 true 1 defaultEmotionalCtx 0,
          importanceScore (fun d => d) 0 r ≤ importanceScore (fun d => d) 0 e) ∧
        storeExperience 1000 (fun d => d) c3mem 1000 "solve the task".toList
            "qa".toList 0.5 true 1 defaultEmotionalCtx 0 =
          (storePreEvict c3mem 1000 "solve the task".toList "qa".toList 0.5
            true 1 defaultEmotionalCtx 0).filter
            (fun e => decide (¬ e.task_id = r.task_id))) :=
  ⟨by unfold c3mem; rw [List.length_map, List.length_range],
    store_then_evict_1001 (fun d => d) 0 c3mem 1000 "solve the task".toList
      "qa".toList 0.5 true 1 defaultEmotionalCtx
      (by unfold c3mem; rw [List.length_map, List.length_range])
      (by rw [c3mem_ids]; exact List.nodup_range 1000)
      (by
        intro e he
        have h2 : e.task_id ∈ c3mem.map Experience.task_id :=
          List.mem_map_of_mem _ he
        rw [c3mem_ids] at h2
        have := List.mem_range.mp h2
        omega)⟩
